import Mathlib

/-!
Verification development for the ore-cli client (`src/main.rs`).

The file shallowly embeds the startup path of the program — CLI arguments,
config-file resolution, `Miner` construction, and the lazy keypair accessors
`Miner::signer` / `Miner::fee_payer` — directly from the Rust source.  The
mining, dynamic-fee, compute-budget and submission modules are declared in
`main.rs` (`mod mine;`, `mod dynamic_fee;`, `mod cu_limits;`,
`mod send_and_confirm;`) but their sources are not part of this tree; where a
property concerns them, the corresponding definition is modelled from the
specification and its doc comment says so.
-/

namespace OreCli

/-- An opaque keypair value, standing for `solana_sdk::signature::Keypair`.
Only identity of the loaded value matters to the properties below. -/
structure Keypair where
  id : Nat
deriving DecidableEq, Repr

/-- The slice of `solana_cli_config::Config` that `main` reads:
`json_rpc_url` (line 169) and `keypair_path` (lines 170-171). -/
structure CliConfig where
  json_rpc_url : String
  keypair_path : String
deriving DecidableEq, Repr

/-- `solana_cli_config::Config::default()`.  The crate is external; the
concrete default strings stand in for its default URL and keypair path. -/
def CliConfig.defaultConfig : CliConfig :=
  { json_rpc_url := "mainnet-beta", keypair_path := "id.json" }

/-- The subcommand enum of `main.rs` (lines 40-75), payloads elided:
the properties below depend only on which command is dispatched. -/
inductive Commands where
  | Balance
  | Benchmark
  | Busses
  | Claim
  | Close
  | Config
  | Mine
  | Rewards
  | Stake
  | Upgrade
deriving DecidableEq, Repr

/-- The parsed CLI arguments (struct `Args`, lines 77-150).  Fields keep the
Rust `Option` types; clap fills the defaulted ones before `main` runs, but the
struct itself allows `None` everywhere, as in the source. -/
structure Args where
  rpc : Option String
  config_file : Option String
  keypair : Option String
  fee_payer_filepath : Option String
  priority_fee : Option Nat
  dynamic_fee_url : Option String
  dynamic_fee_strategy : Option String
  dynamic_fee_max : Option Nat
  cmd : Commands
deriving DecidableEq, Repr

/-- The environment `main` consults while loading its config file:
`solana_cli_config::Config::load` (modelled as a partial map from path to
config; `none` is a load error) and the lazy static
`solana_cli_config::CONFIG_FILE` (the default config path, present when a
home directory was found). -/
structure ConfigEnv where
  load : String → Option CliConfig
  defaultConfigFile : Option String

/-- The recognized dynamic-fee strategy names, from the `--dynamic-fee-strategy`
help text (lines 130-137): helius, triton or alchemy. -/
def recognizedStrategies : List String := ["helius", "triton", "alchemy"]

/-- `main` lines 156-166: with an explicit `--config` path, a load failure
prints an error and exits with status 1 (`std::process::exit(1)`); with no
explicit path, a load failure of the default config file is absorbed by
`unwrap_or_default()`; with no default path, defaults are used directly. -/
def resolveConfig (args : Args) (env : ConfigEnv) : Except Nat CliConfig :=
  match args.config_file with
  | some configFile =>
    match env.load configFile with
    | some c => Except.ok c
    | none => Except.error 1
  | none =>
    match env.defaultConfigFile with
    | some configFile => Except.ok ((env.load configFile).getD CliConfig.defaultConfig)
    | none => Except.ok CliConfig.defaultConfig

/-- The `Miner` struct (lines 30-38).  `rpc_client` is represented by the
cluster URL it was constructed from (line 172). -/
structure Miner where
  keypair_filepath : Option String
  priority_fee : Option Nat
  dynamic_fee_url : Option String
  dynamic_fee_strategy : Option String
  dynamic_fee_max : Option Nat
  rpc_client : String
  fee_payer_filepath : Option String
deriving DecidableEq, Repr

/-- `Miner::new` (lines 224-242): plain field assembly. -/
def Miner.new (rpc_client : String) (priority_fee : Option Nat)
    (keypair_filepath : Option String) (dynamic_fee_url : Option String)
    (dynamic_fee_strategy : Option String) (dynamic_fee_max : Option Nat)
    (fee_payer_filepath : Option String) : Miner :=
  { rpc_client, keypair_filepath, priority_fee, dynamic_fee_url,
    dynamic_fee_strategy, dynamic_fee_max, fee_payer_filepath }

/-- `main` line 170: `args.keypair.unwrap_or(cli_config.keypair_path.clone())`. -/
def defaultKeypairPath (args : Args) (cfg : CliConfig) : String :=
  args.keypair.getD cfg.keypair_path

/-- `main` line 171:
`args.fee_payer_filepath.unwrap_or(cli_config.keypair_path.clone())`. -/
def feePayerPath (args : Args) (cfg : CliConfig) : String :=
  args.fee_payer_filepath.getD cfg.keypair_path

/-- `main` lines 169-182: resolve the cluster URL and the two keypair paths
from the parsed args and the loaded config, and build the `Miner`.  Note that
both path fields are wrapped in `Some(..)` and that no file is read and no
field is validated here. -/
def minerFromArgs (args : Args) (cfg : CliConfig) : Miner :=
  Miner.new (args.rpc.getD cfg.json_rpc_url) args.priority_fee
    (some (defaultKeypairPath args cfg)) args.dynamic_fee_url
    args.dynamic_fee_strategy args.dynamic_fee_max
    (some (feePayerPath args cfg))

/-- `main` lines 152-221: load the config (possibly exiting with status 1),
build the `Miner`, and dispatch the subcommand on it (lines 185-220).  The
result records which command is entered with which miner; `Except.error`
is the process exit before any command runs. -/
def runMain (args : Args) (env : ConfigEnv) : Except Nat (Commands × Miner) :=
  match resolveConfig args env with
  | Except.error code => Except.error code
  | Except.ok cfg => Except.ok (args.cmd, minerFromArgs args cfg)

/-- Outcome of `Miner::signer` / `Miner::fee_payer`: a keypair, an
`expect` panic from a failed `read_keypair_file`, or the `panic!` of the
`None` branch. -/
inductive KeypairResult where
  | ok (kp : Keypair)
  | readPanic (msg : String)
  | nonePanic (msg : String)
deriving DecidableEq, Repr

/-- The file system as seen by `read_keypair_file`: `none` means the path
does not name a readable keypair file. -/
def FileSystem : Type := String → Option Keypair

/-- `Miner::signer` (lines 244-250): re-reads the keypair file at the stored
path on every call; panics if the read fails or no path is stored. -/
def Miner.signer (m : Miner) (fs : FileSystem) : KeypairResult :=
  match m.keypair_filepath with
  | some filepath =>
    match fs filepath with
    | some kp => KeypairResult.ok kp
    | none => KeypairResult.readPanic ("No keypair found at " ++ filepath)
  | none => KeypairResult.nonePanic "No keypair provided"

/-- `Miner::fee_payer` (lines 252-258): same shape as `signer`, over
`fee_payer_filepath`. -/
def Miner.fee_payer (m : Miner) (fs : FileSystem) : KeypairResult :=
  match m.fee_payer_filepath with
  | some filepath =>
    match fs filepath with
    | some kp => KeypairResult.ok kp
    | none => KeypairResult.readPanic ("No fee payer keypair found at " ++ filepath)
  | none => KeypairResult.nonePanic "No fee payer keypair provided"

/-- Modelled from the spec: the hash-search partitioning (`mod mine` is
declared in `main.rs` but its source is not in this tree).  The nonce space
`[0, K)` is split into `thread_count` disjoint contiguous partitions of equal
size `K / N`, the last absorbing any remainder.  `partStart K N i` is the
first nonce of partition `i`. -/
def partStart (K N i : Nat) : Nat := i * (K / N)

/-- Modelled from the spec: one past the last nonce of partition `i`; the
last partition extends to `K` (it absorbs the remainder of `K / N`). -/
def partEnd (K N i : Nat) : Nat := if i + 1 = N then K else (i + 1) * (K / N)

/-- Modelled from the spec: the final fee quote of the `FeeEstimator`
(`mod dynamic_fee` is declared in `main.rs` but its source is not in this
tree) is clamped to the configured maximum (`--dynamic-fee-max`); values
above the ceiling are truncated to the ceiling, not treated as an error. -/
def clampFee (fee : Nat) (maxFee : Option Nat) : Nat :=
  match maxFee with
  | some m => min fee m
  | none => fee

/-- Modelled from the spec: a provider strategy yields a numeric estimate, or
falls back to the configured static fee on any provider failure; the result
is then clamped to the ceiling.  Total — fee estimation never errors. -/
def estimateFee (providerFee : Option Nat) (staticFee : Nat)
    (maxFee : Option Nat) : Nat :=
  clampFee (providerFee.getD staticFee) maxFee

/-- Modelled from the spec: the outcome the `TransactionSubmitter` observes
for one broadcast attempt — confirmed landing, or blockhash-window expiry
without confirmation (`mod send_and_confirm` is declared in `main.rs` but its
source is not in this tree). -/
inductive AttemptOutcome where
  | confirmed
  | expired
deriving DecidableEq, Repr

/-- Modelled from the spec: the terminal result of `submit_and_confirm` —
a landed attempt (identified by its attempt index) or `RetryBudgetExhausted`
after `max_attempts` re-signings. -/
inductive SubmitResult where
  | landed (attempt : Nat)
  | retryBudgetExhausted
deriving DecidableEq, Repr

/-- Modelled from the spec: the bounded retry loop.  Each iteration performs
one re-signing (rebuild, re-sign with a fresh blockhash, re-broadcast); on
expiry it retries with the remaining budget; exhausting the budget surfaces
`RetryBudgetExhausted`.  Returns the result together with the number of
signings performed.  `signed` counts the signings already done. -/
def submitLoop (outcome : Nat → AttemptOutcome) : Nat → Nat → SubmitResult × Nat
  | 0, signed => (SubmitResult.retryBudgetExhausted, signed)
  | remaining + 1, signed =>
    match outcome signed with
    | AttemptOutcome.confirmed => (SubmitResult.landed signed, signed + 1)
    | AttemptOutcome.expired => submitLoop outcome remaining (signed + 1)

/-- Modelled from the spec: `submit_and_confirm` with a retry budget of
`maxAttempts`; `outcome n` is what attempt `n` observes on the network. -/
def submitAndConfirm (maxAttempts : Nat) (outcome : Nat → AttemptOutcome) :
    SubmitResult × Nat :=
  submitLoop outcome maxAttempts 0

/-- Modelled from the spec: the `ComputeBudgetPlanner` sums a static
per-instruction cost table (`mod cu_limits` is declared in `main.rs` but its
source is not in this tree). -/
def sumInstructionCosts (costs : List Nat) : Nat :=
  costs.foldl (fun acc c => acc + c) 0

/-- Modelled from the spec: the planner adds a fixed safety margin of
`marginPercent` percent to the summed cost, rounding up (integer ceiling),
before any clamp to the network maximum. -/
def planLimit (costs : List Nat) (marginPercent : Nat) : Nat :=
  (sumInstructionCosts costs * (100 + marginPercent) + 99) / 100

/-- A run of the `mine` subcommand with the given keypair, fee-payer and
strategy flags; the other flags keep their clap defaults (`--priority-fee 0`,
`--dynamic-fee-max 500000`). -/
def mineArgs (keypair fee_payer strategy : Option String) : Args :=
  { rpc := none, config_file := none, keypair,
    fee_payer_filepath := fee_payer, priority_fee := some 0,
    dynamic_fee_url := none, dynamic_fee_strategy := strategy,
    dynamic_fee_max := some 500000, cmd := Commands.Mine }

/-- An environment with no readable config file and no default config path. -/
def bareEnv : ConfigEnv := { load := fun _ => none, defaultConfigFile := none }

/-- An environment whose default config path exists but never loads. -/
def defEnv : ConfigEnv :=
  { load := fun _ => none, defaultConfigFile := some "config.yml" }

/-- A file system with no readable keypair file at any path. -/
def emptyFs : FileSystem := fun _ => none

/-- A file system in one state: every path holds keypair 1. -/
def fsOne : FileSystem := fun _ => some ⟨1⟩

/-- The same file system after the file changed: every path holds keypair 2. -/
def fsTwo : FileSystem := fun _ => some ⟨2⟩

/-- A loaded config whose keypair path is `c.json`. -/
def exCfg : CliConfig := { json_rpc_url := "u", keypair_path := "c.json" }

/-- C1 (counterexample): a concrete run whose `--dynamic-fee-strategy` is the
unrecognized string `bogus` still reaches the `Mine` dispatch — `main`
performs no strategy validation, so startup does not fail and the mining
command is entered; the bogus string is stored in the miner unvalidated. -/
theorem c1_counterexample :
    ¬ ("bogus" ∈ recognizedStrategies) ∧
    runMain (mineArgs (some "id.json") none (some "bogus")) bareEnv
      = Except.ok (Commands.Mine,
          minerFromArgs (mineArgs (some "id.json") none (some "bogus"))
            CliConfig.defaultConfig) ∧
    (minerFromArgs (mineArgs (some "id.json") none (some "bogus"))
        CliConfig.defaultConfig).dynamic_fee_strategy = some "bogus" :=
  ⟨by decide, rfl, rfl⟩

/-- C1 (amended): `main` never inspects the dynamic-fee strategy string at
startup: whenever the config file resolves, startup succeeds — for every
strategy value, recognized or not — the subcommand is dispatched, and the
strategy is stored in the `Miner` verbatim.  Any strategy check can only
happen later, inside the dispatched command. -/
theorem c1_strategy_not_checked_at_startup (args : Args) (env : ConfigEnv)
    (cfg : CliConfig) (h : resolveConfig args env = Except.ok cfg) :
    runMain args env = Except.ok (args.cmd, minerFromArgs args cfg) ∧
    (minerFromArgs args cfg).dynamic_fee_strategy = args.dynamic_fee_strategy := by
  constructor
  · simp [runMain, h]
  · rfl

/-- C1 witness: the amended theorem applied to the bogus-strategy run. -/
theorem c1_strategy_not_checked_at_startup_witness :
    runMain (mineArgs none none (some "bogus")) bareEnv
      = Except.ok (Commands.Mine,
          minerFromArgs (mineArgs none none (some "bogus")) CliConfig.defaultConfig) ∧
    (minerFromArgs (mineArgs none none (some "bogus"))
        CliConfig.defaultConfig).dynamic_fee_strategy = some "bogus" :=
  c1_strategy_not_checked_at_startup (mineArgs none none (some "bogus"))
    bareEnv CliConfig.defaultConfig rfl

/-- C2 (counterexample): a concrete run whose keypair filepath
(`missing.json`) names no readable keypair file still completes startup and
dispatches the `Mine` command; the failure is a panic raised only when
`signer()` is called during command execution — not before. -/
theorem c2_counterexample :
    emptyFs "missing.json" = none ∧
    runMain (mineArgs (some "missing.json") none none) bareEnv
      = Except.ok (Commands.Mine,
          minerFromArgs (mineArgs (some "missing.json") none none)
            CliConfig.defaultConfig) ∧
    Miner.signer
        (minerFromArgs (mineArgs (some "missing.json") none none)
          CliConfig.defaultConfig) emptyFs
      = KeypairResult.readPanic "No keypair found at missing.json" :=
  ⟨rfl, rfl, rfl⟩

/-- C2 (amended): a missing signer keypair is not detected at startup.
`main` stores the resolved filepath without reading the file: startup
completes and the command is dispatched even when the path is unreadable,
and the failure surfaces as the `expect` panic of `signer()` when it is
called during command execution. -/
theorem c2_missing_signer_panics_at_call (args : Args) (env : ConfigEnv)
    (cfg : CliConfig) (fs : FileSystem)
    (h : resolveConfig args env = Except.ok cfg)
    (hfs : fs (defaultKeypairPath args cfg) = none) :
    runMain args env = Except.ok (args.cmd, minerFromArgs args cfg) ∧
    Miner.signer (minerFromArgs args cfg) fs
      = KeypairResult.readPanic
          ("No keypair found at " ++ defaultKeypairPath args cfg) := by
  constructor
  · simp [runMain, h]
  · simp [Miner.signer, minerFromArgs, Miner.new, hfs]

/-- C2 witness: the amended theorem applied to the `missing.json` run. -/
theorem c2_missing_signer_panics_at_call_witness :
    runMain (mineArgs (some "missing.json") none none) defEnv
      = Except.ok (Commands.Mine,
          minerFromArgs (mineArgs (some "missing.json") none none)
            CliConfig.defaultConfig) ∧
    Miner.signer
        (minerFromArgs (mineArgs (some "missing.json") none none)
          CliConfig.defaultConfig) emptyFs
      = KeypairResult.readPanic
          ("No keypair found at "
            ++ defaultKeypairPath (mineArgs (some "missing.json") none none)
                 CliConfig.defaultConfig) :=
  c2_missing_signer_panics_at_call (mineArgs (some "missing.json") none none)
    defEnv CliConfig.defaultConfig emptyFs rfl rfl

/-- C3 (counterexample): `signer()` does not return a value loaded once at
process start.  On the same miner, two later calls to `signer()` return
different keypairs when the file at the stored path has changed in between
— each call re-reads the file (`read_keypair_file` on every invocation,
lines 244-250), so no load happens at start and nothing is cached. -/
theorem c3_counterexample :
    Miner.signer
        (minerFromArgs (mineArgs (some "id.json") none none)
          CliConfig.defaultConfig) fsOne
      = KeypairResult.ok ⟨1⟩ ∧
    Miner.signer
        (minerFromArgs (mineArgs (some "id.json") none none)
          CliConfig.defaultConfig) fsTwo
      = KeypairResult.ok ⟨2⟩ ∧
    KeypairResult.ok ⟨1⟩ ≠ KeypairResult.ok ⟨2⟩ :=
  ⟨rfl, rfl, by decide⟩

/-- C3 (amended): the keypairs are not loaded at startup and never cached:
every call to `signer()` or `fee_payer()` re-reads the keypair file at the
stored path, and the result of a call is determined exactly by the file
content at call time — two calls agree precisely when the file content at
the stored path agrees. -/
theorem c3_signer_rereads_file (m : Miner) (p q : String)
    (fs₁ fs₂ : FileSystem) (hp : m.keypair_filepath = some p)
    (hq : m.fee_payer_filepath = some q) :
    (Miner.signer m fs₁ = Miner.signer m fs₂ ↔ fs₁ p = fs₂ p) ∧
    (Miner.fee_payer m fs₁ = Miner.fee_payer m fs₂ ↔ fs₁ q = fs₂ q) := by
  constructor
  · cases h₁ : fs₁ p <;> cases h₂ : fs₂ p <;>
      simp [Miner.signer, hp, h₁, h₂]
  · cases h₁ : fs₁ q <;> cases h₂ : fs₂ q <;>
      simp [Miner.fee_payer, hq, h₁, h₂]

/-- C3 witness: the amended theorem applied to a concrete miner and the two
file-system states; the changed file is visible to the second call. -/
theorem c3_signer_rereads_file_witness :
    (Miner.signer
        (minerFromArgs (mineArgs (some "id.json") none none)
          CliConfig.defaultConfig) fsOne
      = Miner.signer
          (minerFromArgs (mineArgs (some "id.json") none none)
            CliConfig.defaultConfig) fsTwo
      ↔ fsOne "id.json" = fsTwo "id.json") ∧
    (Miner.fee_payer
        (minerFromArgs (mineArgs (some "id.json") none none)
          CliConfig.defaultConfig) fsOne
      = Miner.fee_payer
          (minerFromArgs (mineArgs (some "id.json") none none)
            CliConfig.defaultConfig) fsTwo
      ↔ fsOne "id.json" = fsTwo "id.json") :=
  c3_signer_rereads_file
    (minerFromArgs (mineArgs (some "id.json") none none)
      CliConfig.defaultConfig) "id.json" "id.json" fsOne fsTwo rfl rfl

/-- C8: config-file loading is asymmetric.  An explicit `--config` path that
fails to load exits the process with status 1; with no explicit path, a load
failure of the default config file is silently absorbed and the default
configuration values are used. -/
theorem c8_config_load_asymmetry (args₁ args₂ : Args) (env : ConfigEnv)
    (cf dcf : String)
    (h₁ : args₁.config_file = some cf) (h₁f : env.load cf = none)
    (h₂ : args₂.config_file = none) (h₂d : env.defaultConfigFile = some dcf)
    (h₂f : env.load dcf = none) :
    resolveConfig args₁ env = Except.error 1 ∧
    resolveConfig args₂ env = Except.ok CliConfig.defaultConfig := by
  constructor
  · simp [resolveConfig, h₁, h₁f]
  · simp [resolveConfig, h₂, h₂d, h₂f]

/-- C8 witness: the theorem applied to concrete runs against an environment
in which no config file loads. -/
theorem c8_config_load_asymmetry_witness :
    resolveConfig { mineArgs none none none with config_file := some "my.yml" }
        defEnv = Except.error 1 ∧
    resolveConfig (mineArgs none none none) defEnv
      = Except.ok CliConfig.defaultConfig :=
  c8_config_load_asymmetry
    { mineArgs none none none with config_file := some "my.yml" }
    (mineArgs none none none) defEnv "my.yml" "config.yml"
    rfl rfl rfl rfl rfl

/-- C9 (counterexample): the fee payer can equal the signer even when both
flags override the config path.  With `--keypair a.json --fee-payer a.json`
and config keypair path `c.json`, both resolved paths are `a.json`: they
are equal although the keypair flag was supplied and differs from the
config path — refuting "equals the signer only when neither flag overrides
the config path". -/
theorem c9_counterexample :
    defaultKeypairPath (mineArgs (some "a.json") (some "a.json") none) exCfg
      = "a.json" ∧
    feePayerPath (mineArgs (some "a.json") (some "a.json") none) exCfg
      = "a.json" ∧
    (mineArgs (some "a.json") (some "a.json") none).keypair = some "a.json" ∧
    "a.json" ≠ exCfg.keypair_path :=
  ⟨rfl, rfl, rfl, by decide⟩

/-- C9 (amended): when a keypair filepath is supplied but no fee-payer
filepath is, the fee payer defaults to the config file's keypair path, not
to the supplied keypair filepath; in that case the fee payer equals the
signer exactly when the supplied keypair path coincides with the config
keypair path. -/
theorem c9_fee_payer_defaults_to_config_path (args : Args) (cfg : CliConfig)
    (k : String) (hk : args.keypair = some k)
    (hf : args.fee_payer_filepath = none) :
    feePayerPath args cfg = cfg.keypair_path ∧
    defaultKeypairPath args cfg = k ∧
    (feePayerPath args cfg = defaultKeypairPath args cfg
      ↔ k = cfg.keypair_path) := by
  refine ⟨?_, ?_, ?_⟩
  · simp [feePayerPath, hf]
  · simp [defaultKeypairPath, hk]
  · simp [feePayerPath, defaultKeypairPath, hf, hk, eq_comm]

/-- C9 witness: the amended theorem applied to `--keypair a.json` with no
fee-payer flag against the config whose keypair path is `c.json`. -/
theorem c9_fee_payer_defaults_to_config_path_witness :
    feePayerPath (mineArgs (some "a.json") none none) exCfg
      = exCfg.keypair_path ∧
    defaultKeypairPath (mineArgs (some "a.json") none none) exCfg = "a.json" ∧
    (feePayerPath (mineArgs (some "a.json") none none) exCfg
        = defaultKeypairPath (mineArgs (some "a.json") none none) exCfg
      ↔ "a.json" = exCfg.keypair_path) :=
  c9_fee_payer_defaults_to_config_path (mineArgs (some "a.json") none none)
    exCfg "a.json" rfl rfl

/-- C10: every miner built by `main` has both `keypair_filepath` and
`fee_payer_filepath` set to `Some` (main wraps the defaulted paths, lines
174-182), so the `"No keypair provided"` and `"No fee payer keypair
provided"` panic branches of `signer()` and `fee_payer()` are unreachable
for miners built through `main`, whatever the file system holds. -/
theorem c10_panic_branches_unreachable (args : Args) (env : ConfigEnv)
    (c : Commands) (m : Miner)
    (h : runMain args env = Except.ok (c, m)) :
    m.keypair_filepath.isSome ∧ m.fee_payer_filepath.isSome ∧
    ∀ (fs : FileSystem) (msg : String),
      Miner.signer m fs ≠ KeypairResult.nonePanic msg ∧
      Miner.fee_payer m fs ≠ KeypairResult.nonePanic msg := by
  cases hr : resolveConfig args env with
  | error code => simp [runMain, hr] at h
  | ok cfg =>
    simp [runMain, hr] at h
    obtain ⟨hc, hm⟩ := h
    subst hm
    refine ⟨rfl, rfl, ?_⟩
    intro fs msg
    constructor
    · simp only [Miner.signer, minerFromArgs, Miner.new]
      cases fs (defaultKeypairPath args cfg) <;> simp
    · simp only [Miner.fee_payer, minerFromArgs, Miner.new]
      cases fs (feePayerPath args cfg) <;> simp

/-- C10 witness: the theorem applied to a concrete run of `main`. -/
theorem c10_panic_branches_unreachable_witness :
    (minerFromArgs (mineArgs none none none)
        CliConfig.defaultConfig).keypair_filepath.isSome ∧
    (minerFromArgs (mineArgs none none none)
        CliConfig.defaultConfig).fee_payer_filepath.isSome ∧
    ∀ (fs : FileSystem) (msg : String),
      Miner.signer (minerFromArgs (mineArgs none none none)
          CliConfig.defaultConfig) fs ≠ KeypairResult.nonePanic msg ∧
      Miner.fee_payer (minerFromArgs (mineArgs none none none)
          CliConfig.defaultConfig) fs ≠ KeypairResult.nonePanic msg :=
  c10_panic_branches_unreachable (mineArgs none none none) bareEnv
    Commands.Mine
    (minerFromArgs (mineArgs none none none) CliConfig.defaultConfig) rfl

/-- C5: every fee quote is at most the configured maximum; an estimate at or
above the ceiling is reported exactly as the ceiling, one below it passes
through unchanged — and the estimator is a total function, so exceeding the
ceiling is never an error. -/
theorem c5_fee_ceiling (providerFee : Option Nat) (staticFee m : Nat) :
    estimateFee providerFee staticFee (some m) ≤ m ∧
    (∀ f, providerFee = some f → m ≤ f →
      estimateFee providerFee staticFee (some m) = m) ∧
    (∀ f, providerFee = some f → f ≤ m →
      estimateFee providerFee staticFee (some m) = f) := by
  refine ⟨?_, ?_, ?_⟩
  · exact Nat.min_le_right _ m
  · intro f hf hm
    subst hf
    simp [estimateFee, clampFee, Nat.min_eq_right hm]
  · intro f hf hm
    subst hf
    simp [estimateFee, clampFee, Nat.min_eq_left hm]

/-- C5 witness: an estimate of 700000 against the default ceiling 500000 is
reported exactly as 500000. -/
theorem c5_fee_ceiling_witness :
    estimateFee (some 700000) 0 (some 500000) ≤ 500000 ∧
    estimateFee (some 700000) 0 (some 500000) = 500000 :=
  ⟨(c5_fee_ceiling (some 700000) 0 500000).1,
   (c5_fee_ceiling (some 700000) 0 500000).2.1 700000 rfl (by norm_num)⟩

/-- Under perpetual expiry the retry loop spends its whole budget: from any
starting count it performs exactly `remaining` further signings and ends in
`RetryBudgetExhausted`. -/
theorem submitLoop_perpetual_expiry (outcome : Nat → AttemptOutcome)
    (h : ∀ n, outcome n = AttemptOutcome.expired) :
    ∀ remaining signed, submitLoop outcome remaining signed
      = (SubmitResult.retryBudgetExhausted, signed + remaining) := by
  intro remaining
  induction remaining with
  | zero => intro s; simp [submitLoop]
  | succ k ih =>
    intro s
    calc submitLoop outcome (k + 1) s
        = submitLoop outcome k (s + 1) := by simp [submitLoop, h s]
      _ = (SubmitResult.retryBudgetExhausted, s + 1 + k) := ih (s + 1)
      _ = (SubmitResult.retryBudgetExhausted, s + (k + 1)) := by
          rw [Nat.add_right_comm, Nat.add_assoc]

/-- C6: under perpetual blockhash expiry with no confirmation,
`submit_and_confirm` performs exactly `maxAttempts` re-signings and then
terminates with `RetryBudgetExhausted`; the retry loop never runs
unboundedly. -/
theorem c6_bounded_retry (maxAttempts : Nat) (outcome : Nat → AttemptOutcome)
    (h : ∀ n, outcome n = AttemptOutcome.expired) :
    submitAndConfirm maxAttempts outcome
      = (SubmitResult.retryBudgetExhausted, maxAttempts) := by
  have hkey := submitLoop_perpetual_expiry outcome h maxAttempts 0
  simpa [submitAndConfirm] using hkey

/-- C6 witness: a budget of 5 attempts against an always-expiring network
performs exactly 5 signings and surfaces `RetryBudgetExhausted`. -/
theorem c6_bounded_retry_witness :
    submitAndConfirm 5 (fun _ => AttemptOutcome.expired)
      = (SubmitResult.retryBudgetExhausted, 5) :=
  c6_bounded_retry 5 (fun _ => AttemptOutcome.expired) (fun _ => rfl)

/-- C7: three instructions with cost-table values `[200, 150, 100]` sum to
450 compute units, and a 20% safety margin yields a unit limit of
`ceil(450 * 1.2) = 540`, computed in integer arithmetic before any
network-maximum clamp. -/
theorem c7_budget_computation :
    sumInstructionCosts [200, 150, 100] = 450 ∧
    planLimit [200, 150, 100] 20 = 540 ∧
    planLimit [200, 150, 100] 20 = (450 * 120 + 99) / 100 :=
  ⟨rfl, rfl, rfl⟩

/-- A number is below the next multiple of a positive divisor. -/
theorem lt_succ_div_mul (x q : Nat) (hq : 0 < q) : x < (x / q + 1) * q := by
  have h1 : q * (x / q) + x % q = x := Nat.div_add_mod x q
  have h2 : x % q < q := Nat.mod_lt x hq
  have h3 : (x / q + 1) * q = q * (x / q) + q := by ring
  omega

/-- Every partition ends within the nonce space. -/
theorem partEnd_le (K N i : Nat) (hi : i < N) : partEnd K N i ≤ K := by
  unfold partEnd
  by_cases h : i + 1 = N
  · simp [h]
  · rw [if_neg h]
    calc (i + 1) * (K / N) ≤ N * (K / N) := Nat.mul_le_mul_right _ hi
      _ ≤ K := by rw [Nat.mul_comm]; exact Nat.div_mul_le_self K N

/-- Every nonce of the space lies in some partition. -/
theorem partition_mem (K N x : Nat) (hN : 0 < N) (hx : x < K) :
    ∃ i, i < N ∧ partStart K N i ≤ x ∧ x < partEnd K N i := by
  by_cases hq : K / N = 0
  · refine ⟨N - 1, by omega, ?_, ?_⟩
    · simp [partStart, hq]
    · unfold partEnd
      rw [if_pos (by omega : N - 1 + 1 = N)]
      exact hx
  · have hq₁ : 0 < K / N := Nat.pos_of_ne_zero hq
    by_cases hd : x / (K / N) < N - 1
    · refine ⟨x / (K / N), by omega, ?_, ?_⟩
      · simp only [partStart]
        exact Nat.div_mul_le_self x (K / N)
      · unfold partEnd
        rw [if_neg (by omega)]
        exact lt_succ_div_mul x (K / N) hq₁
    · refine ⟨N - 1, by omega, ?_, ?_⟩
      · simp only [partStart]
        calc (N - 1) * (K / N) ≤ (x / (K / N)) * (K / N) :=
              Nat.mul_le_mul_right _ (by omega)
          _ ≤ x := Nat.div_mul_le_self x (K / N)
      · unfold partEnd
        rw [if_pos (by omega : N - 1 + 1 = N)]
        exact hx

/-- C4: for every nonce-space size K and positive thread_count N, the N
worker partitions are disjoint (ordered end-to-start), contiguous, of equal
size `K / N` except the last, start at 0, end at K, and their union is
exactly `[0, K)`. -/
theorem c4_partition_complete (K N : Nat) (hN : 0 < N) :
    (∀ x, x < K ↔ ∃ i, i < N ∧ partStart K N i ≤ x ∧ x < partEnd K N i) ∧
    (∀ i j, i < j → j < N → partEnd K N i ≤ partStart K N j) ∧
    (∀ i, i + 1 < N → partEnd K N i = partStart K N (i + 1)) ∧
    (∀ i, i + 1 < N → partEnd K N i - partStart K N i = K / N) ∧
    partStart K N 0 = 0 ∧ partEnd K N (N - 1) = K := by
  refine ⟨?_, ?_, ?_, ?_, ?_, ?_⟩
  · intro x
    constructor
    · exact partition_mem K N x hN
    · rintro ⟨i, hi, _, hlt⟩
      exact lt_of_lt_of_le hlt (partEnd_le K N i hi)
  · intro i j hij hj
    unfold partEnd partStart
    rw [if_neg (by omega)]
    exact Nat.mul_le_mul_right _ (by omega)
  · intro i hi
    unfold partEnd partStart
    rw [if_neg (by omega)]
  · intro i hi
    unfold partEnd partStart
    rw [if_neg (by omega)]
    generalize K / N = q
    have h : (i + 1) * q = i * q + q := by ring
    omega
  · simp [partStart]
  · unfold partEnd
    rw [if_pos (by omega)]

/-- C4 witness: the theorem instantiated at K = 5 nonces and N = 3 threads,
where the partitions are [0,1), [1,2), [2,5). -/
theorem c4_partition_complete_witness :
    0 < 3 ∧
    ((∀ x, x < 5 ↔ ∃ i, i < 3 ∧ partStart 5 3 i ≤ x ∧ x < partEnd 5 3 i) ∧
    (∀ i j, i < j → j < 3 → partEnd 5 3 i ≤ partStart 5 3 j) ∧
    (∀ i, i + 1 < 3 → partEnd 5 3 i = partStart 5 3 (i + 1)) ∧
    (∀ i, i + 1 < 3 → partEnd 5 3 i - partStart 5 3 i = 5 / 3) ∧
    partStart 5 3 0 = 0 ∧ partEnd 5 3 (3 - 1) = 5) :=
  ⟨by decide, c4_partition_complete 5 3 (by decide)⟩


end OreCli
